import Mathlib

/-!
Verification development for the beauty-sales orchestration pipeline.

The definitions below are a shallow embedding of the pipeline core found in
`app/agents/main_agent.py` and the streaming endpoint `app/api/endpoints/chat.py`.
Python strings are modelled as `List Char`; the expert collaborators (LLM-backed
agents) are modelled as oracle functions supplied through the `Collaborators`
record, mirroring the interface each agent exposes to the pipeline
(`get_knowledge_response`, `execute_nl_query`, `run_analysis`,
`create_visualization`).  Mutable agent state (loaded datasets) and call counts
are threaded explicitly through `AgentsState`.
-/

abbrev Str := List Char

/-- Python substring test `needle in hay` for strings. -/
def pyIn (needle hay : Str) : Bool := decide (needle <:+: hay)

/-- Python `str.lower()`.  Character-wise ASCII lowering; every keyword this
development compares against is either pure CJK text (fixed by both this map and
Python's `lower`) or already-lowercase ASCII, so the two agree on all inputs
that matter here. -/
def pyLower (s : Str) : Str := s.map Char.toLower

/-- ASCII whitespace, the only whitespace appearing in the embedded texts. -/
def isSpaceChar (c : Char) : Bool :=
  c = ' ' || c = '\t' || c = '\n' || c = '\r' || c = '\x0b' || c = '\x0c'

/-- Python `str.split(sep)` for a single-character separator. -/
def splitOn (sep : Char) : Str → List Str
  | [] => [[]]
  | c :: cs =>
    match splitOn sep cs with
    | [] => [[]]
    | line :: rest => if c = sep then [] :: line :: rest else (c :: line) :: rest

/-- Python `str.strip()`. -/
def stripStr (s : Str) : Str :=
  ((s.dropWhile isSpaceChar).reverse.dropWhile isSpaceChar).reverse

/-- Python `str.lstrip("\n")`. -/
def lstripNl (s : Str) : Str := s.dropWhile (fun c => c = '\n')

/-- Python `sep.join(lines)`. -/
def joinWith (sep : Str) : List Str → Str
  | [] => []
  | [l] => l
  | l :: ls => l ++ sep ++ joinWith sep ls

def nlStr : Str := "\n".data

/-! ### `_clean_response_content` (main_agent.py lines 930-974) -/

def fenceTok : Str := "```".data

/-- The fenced-line removal loop of `_clean_response_content`: lines whose
stripped form starts with three backticks toggle the in-code-block flag and are
dropped; lines inside a block are dropped; all other lines are kept. -/
def removeFencedLoop : List Str → Bool → List Str
  | [], _ => []
  | line :: rest, inBlock =>
    if fenceTok.isPrefixOf (stripStr line) then removeFencedLoop rest (!inBlock)
    else if inBlock then removeFencedLoop rest inBlock
    else line :: removeFencedLoop rest inBlock

/-- The hard-coded replacement report returned by `_clean_response_content` when
the de-fenced text is shorter than 100 characters. -/
def boilerplateReport : Str :=
  ("根据数据分析，以下是主要发现和建议：\n\n" ++
   "1. 销售趋势: 数据显示销售整体呈现季节性波动，高峰期通常在节假日期间。\n" ++
   "2. 产品表现: 高端护肤产品的利润率最高，而彩妆产品的销量领先。\n" ++
   "3. 客户分析: 回购率超过60%，说明产品质量和客户满意度较高。\n" ++
   "4. 区域分布: 一线城市贡献了约70%的销售额，二三线城市有较大增长潜力。\n\n" ++
   "建议:\n" ++
   "1. 在销售淡季增加促销活动，平衡全年收入。\n" ++
   "2. 扩大高利润产品线，优化低利润产品的成本结构。\n" ++
   "3. 加强二三线城市的营销和分销渠道。\n" ++
   "4. 开发客户忠诚度计划，进一步提高回购率。").data

/-- `MainAgent._clean_response_content`. -/
def cleanResponseContent (t : Str) : Str :=
  if t.isEmpty then t
  else if pyIn fenceTok t then
    let cleaned := stripStr (joinWith nlStr (removeFencedLoop (splitOn '\n' t) false))
    if cleaned.length < 100 then boilerplateReport else cleaned
  else t

/-! ### `_should_use_all_agents` (main_agent.py lines 125-147) -/

def comprehensiveKeywords : List Str :=
  ["全面分析", "完整分析", "深入分析", "综合分析",
   "从多个角度", "多维度", "全方位",
   "行业背景", "数据查询", "统计分析", "可视化",
   "完整报告", "详细报告", "专业分析报告",
   "展示所有能力", "全部功能", "完整流程"].map String.data

/-- `MainAgent._should_use_all_agents`: comprehensive-analysis keyword match on
the lowercased query, else the length-over-20 heuristic. -/
def shouldUseAllAgents (q : Str) : Bool :=
  (comprehensiveKeywords.any fun k => pyIn k (pyLower q)) || decide (q.length > 20)

/-! ### Expert stages and `_parse_execution_plan` (main_agent.py lines 258-297) -/

inductive ExpertType where
  | knowledge
  | sql
  | dataExp
  | vizExp
  | router
deriving DecidableEq, Repr

structure Expert where
  etype : ExpertType
  name : Str
deriving DecidableEq, Repr

def knowledgeName : Str := "美妆行业知识专家".data
def sqlName : Str := "SQL专家".data
def dataName : Str := "数据分析专家".data
def vizName : Str := "数据可视化专家".data
def routerName : Str := "主助手".data

/-- The keyword table mapping a bracketed plan tag to an expert stage
(the if/elif chain of `_parse_execution_plan`); unrecognized tags are dropped. -/
def tagToExpert (tag : Str) : Option Expert :=
  if pyIn "知识专家".data tag || pyIn "行业知识".data tag then some ⟨.knowledge, tag⟩
  else if pyIn "SQL".data tag || pyIn "数据库".data tag then some ⟨.sql, tag⟩
  else if pyIn "数据分析".data tag then some ⟨.dataExp, tag⟩
  else if pyIn "可视化".data tag || pyIn "图表".data tag then some ⟨.vizExp, tag⟩
  else none

/-- The matches of `re.findall(r"\[(.*?)\]", line)` on a single line: scan for
an opening bracket, then capture lazily up to the next closing bracket. -/
def ebAux : Option Str → Str → List Str
  | _, [] => []
  | none, c :: cs => if c = '[' then ebAux (some []) cs else ebAux none cs
  | some acc, c :: cs =>
    if c = ']' then acc.reverse :: ebAux none cs else ebAux (some (c :: acc)) cs

def extractBrackets (line : Str) : List Str := ebAux none line

def planMarker : Str := "执行计划:".data

def takeLine (s : Str) : Str := s.takeWhile (fun c => c != '\n')

def dropWs (s : Str) : Str := s.dropWhile isSpaceChar

/-- The search `re.search(r"执行计划:\s*(.+?)$", text, re.MULTILINE)`: at the
first position where the literal marker matches, skip whitespace and capture
the non-empty remainder of that line; if the capture would be empty the scan
continues at the next character, as the regex engine does. -/
def planSearch : Str → Option Str
  | [] => none
  | c :: cs =>
    if planMarker.isPrefixOf (c :: cs) then
      let content := takeLine (dropWs ((c :: cs).drop planMarker.length))
      if content.isEmpty then planSearch cs else some content
    else planSearch cs

/-- `MainAgent._parse_execution_plan`. -/
def parseExecutionPlan (planText : Str) : List Expert :=
  let seq :=
    match planSearch planText with
    | some planLine => (extractBrackets planLine).filterMap tagToExpert
    | none =>
      let lt := pyLower planText
      (if pyIn "知识专家".data lt || pyIn "行业知识".data lt then
        [Expert.mk .knowledge knowledgeName] else []) ++
      (if pyIn "sql".data lt || pyIn "数据库".data lt then
        [Expert.mk .sql sqlName] else []) ++
      (if pyIn "数据分析".data lt then [Expert.mk .dataExp dataName] else []) ++
      (if pyIn "可视化".data lt || pyIn "图表".data lt then
        [Expert.mk .vizExp vizName] else [])
  if seq.isEmpty then [Expert.mk .router routerName] else seq

/-! ### Shared context, intermediate results and collaborator interfaces -/

/-- Python truthiness of `dict.get(key)` for an optional string value. -/
def optTruthy (o : Option Str) : Bool :=
  match o with
  | some s => !s.isEmpty
  | none => false

structure SharedContext where
  originalQuery : Str
  knowledgeInsights : Str
  sqlResults : Option (List Str)
  analysisFindings : Str
  previousStepOutput : Str
deriving DecidableEq, Repr

/-- The `intermediate_results` dict; a `none` field models an absent key. -/
structure IntermediateResults where
  knowledge : Option Str := none
  sql : Option (List Str) := none
  sqlResponse : Option Str := none
  sqlError : Option Str := none
  dataAnalysis : Option Str := none
  dataVisualization : Option Str := none
  dataError : Option Str := none
  vizDescription : Option Str := none
  vizError : Option Str := none
  routerResponse : Option Str := none
deriving DecidableEq, Repr

/-- Result dict of `SQLAgent.execute_nl_query`.  In the source the success dict
carries `data` and `response` keys and no `error` key, and the failure dict
carries `error` and no `response`/`data`; the fields here are meaningful under
the same conditions. -/
structure SqlResult where
  success : Bool
  data : List Str
  response : Str
  error : Str
deriving DecidableEq, Repr

/-- Result dict of `DataAgent.run_analysis`; `none` models an absent key
(`dict.get` defaults apply, e.g. `result.get("success", True)`). -/
structure DataResult where
  success : Option Bool
  response : Option Str
  codeOutput : Option Str
  visualization : Option Str
  error : Option Str
deriving DecidableEq, Repr

/-- Result dict of `VisualizationAgent.create_visualization`. -/
structure VizResult where
  success : Option Bool
  description : Option Str
  visualization : Option Str
  error : Option Str
deriving DecidableEq, Repr

/-- The external expert collaborators, as deterministic oracles from the query
text to the result dict each agent returns.  `planChunks` is the reasoning
collaborator's streamed plan text (the `control_agent.run` content pieces). -/
structure Collaborators where
  knowledge : Str → Str
  sqlQuery : Str → SqlResult
  runAnalysis : Str → DataResult
  createViz : Str → VizResult
  planChunks : List Str

structure SessionState where
  currentDataPath : Option Str
  hasDatabase : Bool
deriving DecidableEq, Repr

/-- Mutable state held by the singleton agents (`data_agent.current_data`,
`visualization_agent.current_data`), plus invocation counters recording how
often each expert collaborator has been called. -/
structure AgentsState where
  dataAgentData : Option (List Str)
  vizAgentData : Option (List Str)
  knowledgeCalls : Nat := 0
  sqlCalls : Nat := 0
  dataCalls : Nat := 0
  vizCalls : Nat := 0
deriving DecidableEq, Repr

/-- The `result` local of the stage loop: `None`, a plain string (knowledge),
or one of the result dicts. -/
inductive ResultVal where
  | pyNone
  | str (s : Str)
  | sqlR (r : SqlResult)
  | dataR (r : DataResult)
  | vizR (r : VizResult)
deriving DecidableEq, Repr

/-- Local variables of one execution pass over the expert sequence. -/
structure RunVars where
  currentQuery : Str
  ir : IntermediateResults
  finalResponse : Str
  visualization : Option Str
  codeOutput : Str
  sourceAgent : Str
  ctx : SharedContext
deriving DecidableEq, Repr

def initRunVars (q : Str) : RunVars :=
  { currentQuery := q
    ir := {}
    finalResponse := []
    visualization := none
    codeOutput := []
    sourceAgent := "router".data
    ctx := { originalQuery := q, knowledgeInsights := [], sqlResults := none
             analysisFindings := [], previousStepOutput := [] } }

/-! ### Generated summary (`_generate_comprehensive_summary`, lines 845-908) -/

def generateComprehensiveSummary (ctx : SharedContext) (ir : IntermediateResults) : Str :=
  let parts : List Str :=
    ["# 美妆销售数据全面分析报告".data, []] ++
    (if !ctx.knowledgeInsights.isEmpty then
      ["## 🏷️ 行业背景与专业洞察".data, ctx.knowledgeInsights, []] else []) ++
    (if optTruthy ir.sqlResponse then
      ["## 🔍 数据查询结果".data, ir.sqlResponse.getD [], []]
     else if optTruthy ir.sqlError then
      ["## ⚠️ 数据查询状态".data, "数据查询遇到问题: ".data ++ ir.sqlError.getD [], []]
     else []) ++
    (if !ctx.analysisFindings.isEmpty then
      ["## 📊 深度数据分析".data, ctx.analysisFindings, []]
     else if optTruthy ir.dataError then
      ["## ⚠️ 数据分析状态".data, "数据分析遇到问题: ".data ++ ir.dataError.getD [], []]
     else []) ++
    (if optTruthy ir.vizDescription then
      ["## 📈 可视化图表说明".data, ir.vizDescription.getD [], []]
     else if optTruthy ir.vizError then
      ["## ⚠️ 可视化状态".data, "可视化生成遇到问题: ".data ++ ir.vizError.getD [], []]
     else []) ++
    ["## 🎯 综合结论".data,
     "通过我们4位专家的协作分析，我们从行业背景、数据查询、统计分析到可视化展示，".data,
     "为您提供了一个全面的美妆销售数据分析。这个分析流程展示了我们系统的完整能力：".data,
     [],
     "1. **行业知识专家**: 提供了专业的美妆行业背景和洞察".data,
     "2. **SQL专家**: 生成了针对性的数据查询".data,
     "3. **数据分析专家**: 进行了深入的统计分析和趋势识别".data,
     "4. **可视化专家**: 创建了直观的图表展示".data,
     [],
     "这种多专家协作的方式确保了分析的全面性和专业性，".data,
     "能够为您的美妆销售业务提供有价值的数据驱动洞察。".data]
  joinWith nlStr parts

/-! ### Enhanced per-stage queries (the f-string templates of the stage loop) -/

def knowledgeEnhancedQuery (currentQuery : Str) : Str :=
  "请为以下美妆销售数据分析问题提供行业背景知识和专业见解：\n\n用户问题: ".data ++
  currentQuery ++
  ("\n\n请提供：\n1. 相关的美妆行业知识背景\n2. 这类问题在行业中的重要性\n" ++
   "3. 分析这类问题时需要关注的关键指标\n4. 行业最佳实践和趋势").data

def sqlEnhancedQuery (knowledgeInsights currentQuery : Str) : Str :=
  "基于以下行业背景知识，请为用户问题生成合适的SQL查询：\n\n行业背景知识：\n".data ++
  knowledgeInsights ++ "\n\n用户问题: ".data ++ currentQuery ++
  "\n\n请生成能够获取相关数据的SQL查询语句。".data

def dataEnhancedQuery (currentQuery knowledgeInsights prevOutput : Str) : Str :=
  "请基于以下信息进行深入的数据分析：\n\n原始用户问题: ".data ++ currentQuery ++
  "\n\n行业背景知识：\n".data ++ knowledgeInsights ++
  "\n\nSQL查询结果：\n".data ++ prevOutput ++
  ("\n\n请提供：\n1. 数据概览和质量评估\n2. 关键指标的统计分析\n3. 趋势和模式识别\n" ++
   "4. 异常值检测\n5. 基于行业知识的业务洞察\n6. 数据驱动的建议").data

def vizPrepQuery (analysisResponse : Str) : Str :=
  "基于以下分析结果创建可视化图表：\n\n分析发现：\n".data ++ analysisResponse ++
  "\n\n请创建最能体现数据洞察的可视化图表。".data

def vizEnhancedQuery (originalQuery knowledgeInsights analysisFindings : Str) : Str :=
  "请基于以下完整的分析上下文创建最合适的可视化图表：\n\n原始用户问题: ".data ++
  originalQuery ++ "\n\n行业背景知识：\n".data ++ knowledgeInsights ++
  "\n\n数据分析发现：\n".data ++ analysisFindings ++
  ("\n\n请创建能够：\n1. 清晰展示关键数据洞察\n2. 符合美妆行业特点\n" ++
   "3. 易于理解和解释\n4. 支持业务决策的可视化图表").data

/-! ### One stage of the expert loop

The bodies of `_execute_expert_sequence_streaming` and
`_get_final_result_from_streaming` run the identical per-stage logic; it is
factored out here as `runStageExec`.  `routerPlan` is the `execution_plan`
value in scope: the final-result pass receives it as a parameter, while in the
streaming pass that name is undefined, so the streaming wrapper below raises
`NameError` on a router stage instead of calling `runStageExec`. -/

/-- Appends the stage's result to `final_response`: a non-empty plain string is
appended, and a result dict is appended when it carries a `response` key
(knowledge returns a string; SQL success dicts and data dicts may have
`response`; visualization dicts only have `description`, never `response`). -/
def appendFinalResponse (rv : RunVars) (r : ResultVal) (name : Str) : RunVars :=
  let tag : Str := "\n\n[".data ++ name ++ "]: ".data
  match r with
  | .str s => if s.isEmpty then rv
      else { rv with finalResponse := rv.finalResponse ++ tag ++ s }
  | .sqlR q => if q.success
      then { rv with finalResponse := rv.finalResponse ++ tag ++ q.response }
      else rv
  | .dataR d =>
    match d.response with
    | some s => { rv with finalResponse := rv.finalResponse ++ tag ++ s }
    | none => rv
  | .vizR _ => rv
  | .pyNone => rv

def runStageExec (C : Collaborators) (sess : SessionState) (e : Expert)
    (nextType : Option ExpertType) (routerPlan : Str) (rv : RunVars)
    (ag : AgentsState) : ResultVal × RunVars × AgentsState :=
  match e.etype with
  | .knowledge =>
    let q := knowledgeEnhancedQuery rv.currentQuery
    let res := C.knowledge q
    let ag := { ag with knowledgeCalls := ag.knowledgeCalls + 1 }
    let rv := { rv with
      ir := { rv.ir with knowledge := some res }
      ctx := { rv.ctx with knowledgeInsights := res, previousStepOutput := res }
      sourceAgent := "knowledge".data }
    (.str res, appendFinalResponse rv (.str res) e.name, ag)
  | .sql =>
    if sess.hasDatabase then
      let q := sqlEnhancedQuery rv.ctx.knowledgeInsights rv.currentQuery
      let r := C.sqlQuery q
      let ag := { ag with sqlCalls := ag.sqlCalls + 1 }
      if r.success then
        let rv := { rv with
          ir := { rv.ir with sql := some r.data, sqlResponse := some r.response }
          ctx := { rv.ctx with sqlResults := some r.data, previousStepOutput := r.response }
          sourceAgent := "sql".data }
        (.sqlR r, appendFinalResponse rv (.sqlR r) e.name, ag)
      else
        let rv := { rv with
          ir := { rv.ir with sqlError := some r.error }
          ctx := { rv.ctx with previousStepOutput := "SQL查询失败: ".data ++ r.error } }
        (.sqlR r, appendFinalResponse rv (.sqlR r) e.name, ag)
    else
      let rv := { rv with
        ir := { rv.ir with sqlError := some "未连接数据库".data }
        ctx := { rv.ctx with previousStepOutput := "未连接数据库，跳过SQL查询步骤".data } }
      (.pyNone, rv, ag)
  | .dataExp =>
    if optTruthy sess.currentDataPath ||
       (match rv.ir.sql with | some rows => !rows.isEmpty | none => false) then
      let ag :=
        if rv.ir.sql.isSome then
          { ag with dataAgentData := some (rv.ir.sql.getD [])
                    vizAgentData := some (rv.ir.sql.getD []) }
        else ag
      let q := dataEnhancedQuery rv.currentQuery rv.ctx.knowledgeInsights
        rv.ctx.previousStepOutput
      let r := C.runAnalysis q
      let ag := { ag with dataCalls := ag.dataCalls + 1 }
      if r.success.getD true then
        let cleaned := cleanResponseContent (r.response.getD [])
        let r2 := { r with response := some cleaned }
        let rv := { rv with
          ir := { rv.ir with dataAnalysis := some cleaned
                             dataVisualization := r.visualization }
          ctx := { rv.ctx with analysisFindings := cleaned, previousStepOutput := cleaned }
          sourceAgent := "data".data }
        let rv := if optTruthy r.visualization then
          { rv with visualization := r.visualization } else rv
        let rv := if optTruthy r.codeOutput then
          { rv with codeOutput := r.codeOutput.getD [] } else rv
        let rv := if nextType = some ExpertType.vizExp then
          { rv with currentQuery := vizPrepQuery cleaned } else rv
        (.dataR r2, appendFinalResponse rv (.dataR r2) e.name, ag)
      else
        let err := r.error.getD "数据分析失败".data
        let rv := { rv with
          ir := { rv.ir with dataError := some err }
          ctx := { rv.ctx with previousStepOutput := "数据分析失败: ".data ++ err } }
        (.dataR r, appendFinalResponse rv (.dataR r) e.name, ag)
    else
      let rv := { rv with
        ir := { rv.ir with dataError := some "未加载数据".data }
        ctx := { rv.ctx with previousStepOutput := "未加载数据，无法进行数据分析".data } }
      (.pyNone, rv, ag)
  | .vizExp =>
    if ag.dataAgentData.isSome then
      let q := vizEnhancedQuery rv.ctx.originalQuery rv.ctx.knowledgeInsights
        rv.ctx.analysisFindings
      let r := C.createViz q
      let ag := { ag with vizCalls := ag.vizCalls + 1 }
      if r.success.getD true then
        let cleaned := cleanResponseContent (r.description.getD [])
        let r2 := { r with description := some cleaned }
        let rv := { rv with
          ir := { rv.ir with vizDescription := some cleaned }
          sourceAgent := "visualization".data }
        let rv := if optTruthy r.visualization then
          { rv with visualization := r.visualization } else rv
        (.vizR r2, appendFinalResponse rv (.vizR r2) e.name, ag)
      else
        let rv := { rv with
          ir := { rv.ir with vizError := some (r.error.getD "可视化生成失败".data) } }
        (.vizR r, appendFinalResponse rv (.vizR r) e.name, ag)
    else
      let rv := { rv with
        ir := { rv.ir with vizError := some "没有可用数据进行可视化".data } }
      (.pyNone, rv, ag)
  | .router =>
    let rv := { rv with ir := { rv.ir with routerResponse := some routerPlan }
                        sourceAgent := "router".data }
    (.pyNone, rv, ag)

/-! ### Stream events -/

inductive PyError where
  | nameError
deriving DecidableEq, Repr

structure IntermediateContent where
  expertName : Str
  result : ResultVal
  source : Str
  visualization : Option Str
  codeOutput : Str
  step : Nat
  totalSteps : Nat
  sharedContext : SharedContext
  vizWarning : Option Str := none
deriving DecidableEq, Repr

structure FinalContent where
  response : Str
  source : Str
  visualization : Option Str
  codeOutput : Str
  vizIdSaved : Bool := false
  vizWarning : Option Str := none
deriving DecidableEq, Repr

inductive Event where
  | start (sessionId : Str)
  | thinking (msg : Str)
  | planEv (text : Str)
  | experts (names : List Str)
  | expertStart (name : Str) (etype : ExpertType) (step total : Nat)
  | intermediate (c : IntermediateContent)
  | warning (msg : Str)
  | finalEv (c : FinalContent)
  | complete (sessionId : Str) (vizSaved : Bool)
  | errorEv (msg : Str)
deriving DecidableEq, Repr

/-! ### `_execute_expert_sequence_streaming` (lines 430-638) -/

def mkIntermediate (e : Expert) (res : ResultVal) (rv : RunVars) (i total : Nat) :
    IntermediateContent :=
  { expertName := e.name, result := res, source := rv.sourceAgent
    visualization := rv.visualization, codeOutput := rv.codeOutput
    step := i + 1, totalSteps := total, sharedContext := rv.ctx }

/-- The streaming stage loop: per stage, yield `expert_start`, run the stage,
yield `intermediate`.  A router stage reads the undefined local
`execution_plan` which raises `NameError`; the events yielded before the raise
are preserved. -/
def runSeqStreamingAux (C : Collaborators) (sess : SessionState) (total : Nat) :
    List Expert → Nat → RunVars → AgentsState →
    List Event × Except (PyError × AgentsState) (RunVars × AgentsState)
  | [], _, rv, ag => ([], .ok (rv, ag))
  | e :: rest, i, rv, ag =>
    let es := Event.expertStart e.name e.etype (i + 1) total
    if e.etype = ExpertType.router then
      ([es], .error (PyError.nameError, ag))
    else
      let (res, rv2, ag2) := runStageExec C sess e (rest.head?.map Expert.etype) [] rv ag
      let im := Event.intermediate (mkIntermediate e res rv2 i total)
      let (evs, out) := runSeqStreamingAux C sess total rest (i + 1) rv2 ag2
      (es :: im :: evs, out)

def runSeqStreaming (C : Collaborators) (sess : SessionState) (seq : List Expert)
    (q : Str) (ag : AgentsState) :
    List Event × Except (PyError × AgentsState) (RunVars × AgentsState) :=
  runSeqStreamingAux C sess seq.length seq 0 (initRunVars q) ag

/-! ### `_get_final_result_from_streaming` (lines 640-843)

Despite its docstring ("generate the final result based on the results of the
execution process"), this function re-runs every expert stage from a fresh
shared context before assembling the final answer. -/

def runSeqFinalAux (C : Collaborators) (sess : SessionState) (planText : Str) :
    List Expert → RunVars → AgentsState → RunVars × AgentsState
  | [], rv, ag => (rv, ag)
  | e :: rest, rv, ag =>
    let (_, rv2, ag2) := runStageExec C sess e (rest.head?.map Expert.etype) planText rv ag
    runSeqFinalAux C sess planText rest rv2 ag2

def canonicalTypes : List ExpertType :=
  [ExpertType.knowledge, ExpertType.sql, ExpertType.dataExp, ExpertType.vizExp]

def getFinalResultFromStreaming (C : Collaborators) (sess : SessionState) (q : Str)
    (seq : List Expert) (planText : Str) (ag : AgentsState) :
    FinalContent × AgentsState :=
  let (rv, ag2) := runSeqFinalAux C sess planText seq (initRunVars q) ag
  let fr :=
    if seq.length = 4 && seq.all (fun e => canonicalTypes.contains e.etype) then
      generateComprehensiveSummary rv.ctx rv.ir
    else rv.finalResponse
  let fr :=
    if fr.isEmpty then
      match rv.ir.routerResponse with
      | some rr => rr
      | none => fr
    else fr
  let fr := cleanResponseContent (lstripNl fr)
  ({ response := fr, source := rv.sourceAgent, visualization := rv.visualization
     codeOutput := rv.codeOutput }, ag2)

/-! ### `_process_with_all_agents` and `_process_with_router` (lines 149-248) -/

def expertSequenceAll : List Expert :=
  [⟨.knowledge, knowledgeName⟩, ⟨.sql, sqlName⟩, ⟨.dataExp, dataName⟩,
   ⟨.vizExp, vizName⟩]

def allAgentsPlanContent : Str :=
  ("执行计划: [美妆行业知识专家] -> [SQL专家] -> [数据分析专家] -> [数据可视化专家]\n\n" ++
   "这是一个全面的美妆销售数据分析流程：\n" ++
   "1. 美妆行业知识专家: 提供相关行业背景知识和专业见解\n" ++
   "2. SQL专家: 根据需求生成相应的数据查询语句\n" ++
   "3. 数据分析专家: 对获取的数据进行深入统计分析\n" ++
   "4. 数据可视化专家: 将分析结果转化为直观的图表展示\n\n" ++
   "这个流程将全面展示我们系统的完整能力。").data

/-- A pipeline pass result: the yielded events, the exception escaping the
generator if any, and the resulting agents state. -/
def processWithAllAgents (C : Collaborators) (sess : SessionState) (q : Str)
    (ag : AgentsState) : List Event × Option PyError × AgentsState :=
  let (evs, out) := runSeqStreaming C sess expertSequenceAll q ag
  let head := Event.planEv allAgentsPlanContent ::
    Event.experts (expertSequenceAll.map Expert.name) :: evs
  match out with
  | .error (err, ag2) => (head, some err, ag2)
  | .ok (_, ag2) =>
    let (fc, ag3) := getFinalResultFromStreaming C sess q expertSequenceAll
      allAgentsPlanContent ag2
    (head ++ [Event.finalEv fc], none, ag3)

/-- Cumulative concatenations: the router path yields one `plan` event per
streamed chunk, each carrying the text accumulated so far. -/
def cumulPieces (acc : Str) : List Str → List Str
  | [] => []
  | c :: cs => (acc ++ c) :: cumulPieces (acc ++ c) cs

def processWithRouter (C : Collaborators) (sess : SessionState) (q : Str)
    (ag : AgentsState) : List Event × Option PyError × AgentsState :=
  let planText := C.planChunks.foldl (· ++ ·) []
  let seq := parseExecutionPlan planText
  let (evs, out) := runSeqStreaming C sess seq q ag
  let head := Event.thinking "正在规划分析步骤...".data ::
    ((cumulPieces [] C.planChunks).map Event.planEv ++
      Event.experts (seq.map Expert.name) :: evs)
  match out with
  | .error (err, ag2) => (head, some err, ag2)
  | .ok (_, ag2) =>
    let (fc, ag3) := getFinalResultFromStreaming C sess q seq planText ag2
    (head ++ [Event.finalEv fc], none, ag3)

/-- `MainAgent.process_query`. -/
def processQuery (C : Collaborators) (sess : SessionState) (q : Str)
    (ag : AgentsState) : List Event × Option PyError × AgentsState :=
  if shouldUseAllAgents q then processWithAllAgents C sess q ag
  else processWithRouter C sess q ag

/-! ### The streaming endpoint `stream_chat` (chat.py lines 261-489) -/

def timeoutWarnMsg : Str := "处理时间过长，已自动中断。请尝试简化您的问题或分多次询问。".data

def fallbackFinalText : Str :=
  ("处理您的问题时遇到了困难，可能是因为问题过于复杂或数据量过大。" ++
   "请尝试简化您的问题，或者分多次询问不同的方面。").data

def streamErrorMsg : Str := "处理聊天请求时发生错误".data

def truncMarker : Str := "...(响应过长，已截断)".data

def vizTooBigWarning : Str :=
  "可视化数据过大，无法在聊天界面显示。请查看结果部分的可视化摘要。".data

/-- Truncation of `content["result"]["response"]` at the 50 000-character
ceiling (chat.py lines 413-418). -/
def truncResponse (s : Str) : Str :=
  if s.length > 50000 then s.take 50000 ++ truncMarker else s

/-- The response-truncation step applies only when the chunk's `result` value
is a dict that has a `response` key: SQL success dicts and data dicts with a
`response`; a plain string or a visualization dict is left alone. -/
def shrinkResult : ResultVal → ResultVal
  | .sqlR r => if r.success then .sqlR { r with response := truncResponse r.response } else .sqlR r
  | .dataR r =>
    match r.response with
    | some s => .dataR { r with response := some (truncResponse s) }
    | none => .dataR r
  | v => v

/-- The per-chunk size optimization of `stream_chat` (chat.py lines 409-428):
truncate an oversized `result.response`, and replace an oversized inline
visualization string (over 500 000 characters) with `None` plus a warning.
The `final` chunk's content has no `result` key, so its `response` text is
never truncated here; only its `visualization` is checked. -/
def shrinkChunk : Event → Event
  | .intermediate c =>
    let c := { c with result := shrinkResult c.result }
    match c.visualization with
    | some v =>
      if v.length > 500000 then
        .intermediate { c with visualization := none, vizWarning := some vizTooBigWarning }
      else .intermediate c
    | none => .intermediate c
  | .finalEv c =>
    match c.visualization with
    | some v =>
      if v.length > 500000 then
        .finalEv { c with visualization := none, vizWarning := some vizTooBigWarning }
      else .finalEv c
    | none => .finalEv c
  | e => e

/-- The handling a `final` chunk receives before the size optimization: its
response is recorded, and a truthy visualization is saved to the database and
its id written back into the chunk. -/
def markFinalChunk : Event → Event
  | .finalEv c =>
    .finalEv (if optTruthy c.visualization then { c with vizIdSaved := true } else c)
  | e => e

def wireXform (ch : Event) : Event := shrinkChunk (markFinalChunk ch)

/-- The `for response_chunk in main_agent.process_query(...)` loop of
`stream_chat`: each pulled chunk is preceded by a wall-clock deadline check
(`expired n` says whether the check fires for the n-th chunk); on expiry a
`warning` is emitted, the pulled chunk is dropped and the loop breaks.
Returns the emitted events, the recorded final response, whether a
visualization was saved, and whether the loop broke on timeout. -/
def wireLoop (expired : Nat → Bool) :
    List Event → Nat → Option Str → Bool → List Event × Option Str × Bool × Bool
  | [], _, fr, vs => ([], fr, vs, false)
  | ch :: rest, n, fr, vs =>
    if expired n then ([Event.warning timeoutWarnMsg], fr, vs, true)
    else
      let fr := match ch with | .finalEv c => some c.response | _ => fr
      let vs := match ch with
        | .finalEv c => vs || optTruthy c.visualization
        | _ => vs
      let (evs, fr2, vs2, b) := wireLoop expired rest (n + 1) fr vs
      (wireXform ch :: evs, fr2, vs2, b)

/-- The event stream `stream_chat` sends on the wire: a `start` event, the
processed chunks, then either the terminal `complete` event, or — when the
generator raised and the loop consumed every yielded chunk without a timeout
break — an error payload (the outer `except` of `generate_response`). -/
def streamChat (expired : Nat → Bool) (C : Collaborators) (sess : SessionState)
    (ag : AgentsState) (sid : Str) (q : Str) : List Event :=
  let (chunks, err, _) := processQuery C sess q ag
  let (evs, _, vizSaved, broke) := wireLoop expired chunks 0 none false
  match err, broke with
  | some _, false => Event.start sid :: evs ++ [Event.errorEv streamErrorMsg]
  | _, _ => Event.start sid :: evs ++ [Event.complete sid vizSaved]

/-! ### Event observations -/

inductive EvKind where
  | startK
  | thinkingK
  | planK
  | expertsK
  | esK
  | imK
  | warnK
  | finalK
  | completeK
  | errK
deriving DecidableEq, Repr

/-- The event's wire `type` tag together with its step/total fields (zero for
events that carry none). -/
def kindStep : Event → EvKind × Nat × Nat
  | .start _ => (.startK, 0, 0)
  | .thinking _ => (.thinkingK, 0, 0)
  | .planEv _ => (.planK, 0, 0)
  | .experts _ => (.expertsK, 0, 0)
  | .expertStart _ _ s t => (.esK, s, t)
  | .intermediate c => (.imK, c.step, c.totalSteps)
  | .warning _ => (.warnK, 0, 0)
  | .finalEv _ => (.finalK, 0, 0)
  | .complete _ _ => (.completeK, 0, 0)
  | .errorEv _ => (.errK, 0, 0)

def isFinalEv : Event → Bool
  | .finalEv _ => true
  | _ => false

def finalRespOf : Event → Str
  | .finalEv c => c.response
  | _ => []

def vizOf : Event → Option Str
  | .finalEv c => c.visualization
  | .intermediate c => c.visualization
  | _ => none

def vizWarningOf : Event → Option Str
  | .finalEv c => c.vizWarning
  | .intermediate c => c.vizWarning
  | _ => none

def resultRespOf : Event → Option Str
  | .intermediate c =>
    (match c.result with
     | .sqlR r => if r.success then some r.response else none
     | .dataR r => r.response
     | _ => none)
  | _ => none

/-! ### Constructions used by the statements below -/

/-- Renders `[t1] -> [t2] -> ...` as produced by the planner prompt format. -/
def renderRest : List Str → Str
  | [] => []
  | t :: ts => ' ' :: '-' :: '>' :: ' ' :: '[' :: (t ++ (']' :: renderRest ts))

def renderTags : List Str → Str
  | [] => []
  | t :: ts => '[' :: (t ++ (']' :: renderRest ts))

/-- Expected `(expert_start, intermediate)` kind/step/total pattern for `n`
stages starting after step `i` of a `total`-stage plan. -/
def esImShape (total : Nat) : Nat → Nat → List (EvKind × Nat × Nat)
  | _, 0 => []
  | i, n + 1 =>
    (EvKind.esK, i + 1, total) :: (EvKind.imK, i + 1, total) :: esImShape total (i + 1) n

/-- A line that toggles the code-block flag in `_clean_response_content`. -/
def isFenceLine (line : Str) : Bool := fenceTok.isPrefixOf (stripStr line)

/-- Fenced-line removal as the specification phrases it: a left fold over the
lines that drops fence lines and every line inside an open fence. -/
def removeFencedSpec (lines : List Str) : List Str :=
  (lines.foldl
    (fun st line =>
      if isFenceLine line then (!st.1, st.2)
      else if st.1 then st
      else (st.1, st.2 ++ [line]))
    ((false, []) : Bool × List Str)).2

/-- The text remaining after removing fenced lines, joined and stripped. -/
def defencedText (t : Str) : Str :=
  stripStr (joinWith nlStr (removeFencedSpec (splitOn '\n' t)))

/-- The fixed 4-stage planner output of the intent heuristic, together with a
flag recording whether the reasoning collaborator was consulted for a free-form
plan (`process_query` only runs the Router planning round-trip on the
`_process_with_router` path). -/
def intentPlan (planText : Str) (q : Str) : List Expert × Bool :=
  if shouldUseAllAgents q then (expertSequenceAll, false)
  else (parseExecutionPlan planText, true)

/-! ### Concrete fixtures -/

def demoSess : SessionState :=
  { currentDataPath := some "data.csv".data, hasDatabase := true }

def sessNoDb : SessionState :=
  { currentDataPath := some "data.csv".data, hasDatabase := false }

def demoAg : AgentsState :=
  { dataAgentData := some ["filerow".data], vizAgentData := some ["filerow".data] }

def demoC : Collaborators :=
  { knowledge := fun _ => "知识要点".data
    sqlQuery := fun _ =>
      { success := true, data := ["row1".data], response := "查询解释".data, error := [] }
    runAnalysis := fun _ =>
      { success := some true, response := some "分析发现甲".data, codeOutput := some []
        visualization := none, error := none }
    createViz := fun _ =>
      { success := some true, description := some "图表说明乙".data
        visualization := some "img".data, error := none }
    planChunks := [] }

/-- Collaborators for a short off-topic query: the reasoning collaborator's
plan text names no expert, so the parser falls back to the router stage. -/
def demoCRouter : Collaborators := { demoC with planChunks := ["你好，我可以直接回答。".data] }

/-- Collaborators whose knowledge expert returns an empty insight text. -/
def demoCEmptyK : Collaborators := { demoC with knowledge := fun _ => [] }

def demoQuery : Str := "请给出完整报告".data

/-- A final event whose response text exceeds the 50 000-character ceiling. -/
def bigFinalContent : FinalContent :=
  { response := List.replicate 50001 'a', source := "data".data
    visualization := none, codeOutput := [] }

/-! ### Helper lemmas -/

theorem pyIn_iff {n h : Str} : pyIn n h = true ↔ n <:+: h := by
  simp [pyIn]

theorem pyIn_false_iff {n h : Str} : pyIn n h = false ↔ ¬ n <:+: h := by
  simp [pyIn]

/-- An element of the joined list is an infix of the join. -/
theorem infix_joinWith (sep : Str) {a : Str} :
    ∀ {ls : List Str}, a ∈ ls → a <:+: joinWith sep ls := by
  intro ls
  induction ls with
  | nil => intro h; cases h
  | cons l ls ih =>
    intro hmem
    cases ls with
    | nil =>
      rcases List.mem_singleton.mp hmem with rfl
      exact List.infix_rfl
    | cons l2 ls2 =>
      rcases List.mem_cons.mp hmem with rfl | h2
      · refine ⟨[], sep ++ joinWith sep (l2 :: ls2), ?_⟩
        simp [joinWith, List.append_assoc]
      · exact (ih h2).trans
          (List.suffix_append (l ++ sep) (joinWith sep (l2 :: ls2))).isInfix

/-- With the deadline never expiring, the wire loop forwards every chunk
through the size transform and does not break. -/
theorem wireLoop_no_timeout :
    ∀ (chs : List Event) (n : Nat) (fr : Option Str) (vs : Bool),
      (wireLoop (fun _ => false) chs n fr vs).1 = chs.map wireXform ∧
      (wireLoop (fun _ => false) chs n fr vs).2.2.2 = false := by
  intro chs
  induction chs with
  | nil => intro n fr vs; simp [wireLoop]
  | cons ch rest ih =>
    intro n fr vs
    simp only [wireLoop, Bool.false_eq_true, if_false, List.map_cons]
    constructor
    · have h1 := (ih (n + 1) (match ch with | .finalEv c => some c.response | _ => fr)
        (match ch with | .finalEv c => vs || optTruthy c.visualization | _ => vs)).1
      simp [h1]
    · have h2 := (ih (n + 1) (match ch with | .finalEv c => some c.response | _ => fr)
        (match ch with | .finalEv c => vs || optTruthy c.visualization | _ => vs)).2
      simp [h2]

/-- The wire-side size transform never changes an event's kind or step. -/
theorem kindStep_wireXform (e : Event) : kindStep (wireXform e) = kindStep e := by
  cases e
  case intermediate c =>
    simp only [wireXform, markFinalChunk, shrinkChunk]
    cases hv : c.visualization with
    | none => rfl
    | some v => by_cases h : v.length > 500000 <;> simp [h, kindStep]
  case finalEv c =>
    simp only [wireXform, markFinalChunk]
    by_cases hs : optTruthy c.visualization = true
    · simp only [if_pos hs, shrinkChunk]
      cases hv : c.visualization with
      | none => rfl
      | some v => by_cases h : v.length > 500000 <;> simp [hv, h, kindStep]
    · simp only [if_neg hs, shrinkChunk]
      cases hv : c.visualization with
      | none => rfl
      | some v => by_cases h : v.length > 500000 <;> simp [hv, h, kindStep]
  all_goals rfl

theorem map_kindStep_wireXform (l : List Event) :
    (l.map wireXform).map kindStep = l.map kindStep := by
  induction l with
  | nil => rfl
  | cons e l ih => simp [kindStep_wireXform, ih]

/-- Shape of the streaming stage loop: when no stage is the router fallback,
the loop yields exactly an `(expert_start, intermediate)` pair per stage with
consecutive step numbers, and terminates normally. -/
theorem runSeqStreamingAux_shape (C : Collaborators) (sess : SessionState) (total : Nat) :
    ∀ (rest : List Expert) (i : Nat) (rv : RunVars) (ag : AgentsState),
      (∀ e ∈ rest, e.etype ≠ ExpertType.router) →
      (runSeqStreamingAux C sess total rest i rv ag).1.map kindStep =
        esImShape total i rest.length ∧
      ∃ rv2 ag2, (runSeqStreamingAux C sess total rest i rv ag).2 =
        Except.ok (rv2, ag2) := by
  intro rest
  induction rest with
  | nil =>
    intro i rv ag _
    exact ⟨by simp [runSeqStreamingAux, esImShape], rv, ag, rfl⟩
  | cons e rest ih =>
    intro i rv ag h
    have he : ¬ e.etype = ExpertType.router := h e (List.mem_cons_self e rest)
    have hrest : ∀ e2 ∈ rest, e2.etype ≠ ExpertType.router :=
      fun e2 hm => h e2 (List.mem_cons_of_mem _ hm)
    rcases hst : runStageExec C sess e (rest.head?.map Expert.etype) [] rv ag with
      ⟨res, rv2, ag2⟩
    obtain ⟨h1, rv3, ag3, h2⟩ := ih (i + 1) rv2 ag2 hrest
    rcases hrec : runSeqStreamingAux C sess total rest (i + 1) rv2 ag2 with ⟨evs, out⟩
    rw [hrec] at h1 h2
    constructor
    · simp [runSeqStreamingAux, if_neg he, hst, hrec, esImShape, kindStep, h1,
        mkIntermediate]
    · exact ⟨rv3, ag3, by simp [runSeqStreamingAux, if_neg he, hst, hrec, h2]⟩

theorem takeLine_of_no_nl {s : Str} (h : ¬ '\n' ∈ s) : takeLine s = s := by
  induction s with
  | nil => rfl
  | cons c cs ih =>
    have hc : ¬ c = '\n' := fun hc => h (hc ▸ List.mem_cons_self c cs)
    have hcs : ¬ '\n' ∈ cs := fun hm => h (List.mem_cons_of_mem _ hm)
    simp [takeLine] at ih ⊢
    exact ⟨fun hc2 => absurd hc2 hc, ih hcs⟩

/-- `planSearch` at a position where the marker matches and the rest of the
line is non-empty returns that rest. -/
theorem planSearch_marker_head (rest : Str)
    (h : (takeLine (dropWs rest)).isEmpty = false) :
    planSearch ('执' :: '行' :: '计' :: '划' :: ':' :: rest) =
      some (takeLine (dropWs rest)) := by
  have hpre : planMarker.isPrefixOf ('执' :: '行' :: '计' :: '划' :: ':' :: rest) = true := by
    have : planMarker <+: '执' :: '行' :: '计' :: '划' :: ':' :: rest :=
      ⟨rest, rfl⟩
    simpa [List.isPrefixOf_iff_prefix] using this
  rw [planSearch, if_pos hpre]
  have hdrop : ('执' :: '行' :: '计' :: '划' :: ':' :: rest).drop planMarker.length = rest := rfl
  rw [hdrop, if_neg (by simp [h])]

theorem ebAux_capture (rest : Str) :
    ∀ (t acc : Str), ¬ ']' ∈ t →
      ebAux (some acc) (t ++ (']' :: rest)) = (acc.reverse ++ t) :: ebAux none rest := by
  intro t
  induction t with
  | nil => intro acc _; simp [ebAux]
  | cons c t ih =>
    intro acc hc
    have hne : ¬ c = ']' := fun hh => hc (hh ▸ List.mem_cons_self c t)
    have ht : ¬ ']' ∈ t := fun hm => hc (List.mem_cons_of_mem _ hm)
    simp only [List.cons_append, ebAux, if_neg hne, List.append_eq]
    rw [ih (c :: acc) ht]
    simp

theorem ebAux_renderRest :
    ∀ (ts : List Str), (∀ t ∈ ts, ¬ ']' ∈ t) →
      ebAux none (renderRest ts) = ts := by
  intro ts
  induction ts with
  | nil => intro _; rfl
  | cons t ts ih =>
    intro h
    have ht : ¬ ']' ∈ t := (h t (List.mem_cons_self t ts))
    have hts : ∀ t2 ∈ ts, ¬ ']' ∈ t2 := fun t2 hm => h t2 (List.mem_cons_of_mem _ hm)
    show ebAux none (' ' :: '-' :: '>' :: ' ' :: '[' :: (t ++ (']' :: renderRest ts))) = t :: ts
    simp only [ebAux, if_neg (by decide : ¬ ' ' = '['), if_neg (by decide : ¬ '-' = '['),
      if_neg (by decide : ¬ '>' = '['), if_pos rfl]
    rw [ebAux_capture (renderRest ts) t [] ht, ih hts]
    simp

theorem ebAux_renderTags (tags : List Str) (h : ∀ t ∈ tags, ¬ ']' ∈ t) :
    ebAux none (renderTags tags) = tags := by
  cases tags with
  | nil => rfl
  | cons t ts =>
    have ht : ¬ ']' ∈ t := h t (List.mem_cons_self t ts)
    have hts : ∀ t2 ∈ ts, ¬ ']' ∈ t2 := fun t2 hm => h t2 (List.mem_cons_of_mem _ hm)
    show ebAux none ('[' :: (t ++ (']' :: renderRest ts))) = t :: ts
    simp only [ebAux, if_pos rfl]
    rw [ebAux_capture (renderRest ts) t [] ht, ebAux_renderRest ts hts]
    simp

theorem no_nl_renderRest :
    ∀ (ts : List Str), (∀ t ∈ ts, ¬ '\n' ∈ t) → ¬ '\n' ∈ renderRest ts := by
  intro ts
  induction ts with
  | nil => intro _ h; cases h
  | cons t ts ih =>
    intro h hmem
    have ht : ¬ '\n' ∈ t := h t (List.mem_cons_self t ts)
    have hts : ∀ u ∈ ts, ¬ '\n' ∈ u := fun u hm => h u (List.mem_cons_of_mem _ hm)
    simp only [renderRest, List.mem_cons, List.mem_append] at hmem
    rcases hmem with h1 | h1 | h1 | h1 | h1 | h1 | h1 | h1
    · exact absurd h1 (by decide)
    · exact absurd h1 (by decide)
    · exact absurd h1 (by decide)
    · exact absurd h1 (by decide)
    · exact absurd h1 (by decide)
    · exact ht h1
    · exact absurd h1 (by decide)
    · exact ih hts h1

theorem no_nl_renderTags (tags : List Str) (h : ∀ t ∈ tags, ¬ '\n' ∈ t) :
    ¬ '\n' ∈ renderTags tags := by
  cases tags with
  | nil => intro hm; cases hm
  | cons t ts =>
    intro hmem
    have ht : ¬ '\n' ∈ t := h t (List.mem_cons_self t ts)
    have hts : ∀ u ∈ ts, ¬ '\n' ∈ u := fun u hm => h u (List.mem_cons_of_mem _ hm)
    simp only [renderTags, List.mem_cons, List.mem_append] at hmem
    rcases hmem with h1 | h1 | h1 | h1
    · exact absurd h1 (by decide)
    · exact ht h1
    · exact absurd h1 (by decide)
    · exact no_nl_renderRest ts hts h1

theorem planSearch_render (t : Str) (ts : List Str)
    (hnl : ∀ u ∈ t :: ts, ¬ '\n' ∈ u) :
    planSearch (planMarker ++ (' ' :: renderTags (t :: ts))) =
      some (renderTags (t :: ts)) := by
  have hd : dropWs (' ' :: renderTags (t :: ts)) = renderTags (t :: ts) := by
    show dropWs (' ' :: '[' :: (t ++ (']' :: renderRest ts))) =
      '[' :: (t ++ (']' :: renderRest ts))
    simp [dropWs, List.dropWhile_cons, (by decide : isSpaceChar ' ' = true),
      (by decide : isSpaceChar '[' = false)]
  have htl : takeLine (renderTags (t :: ts)) = renderTags (t :: ts) :=
    takeLine_of_no_nl (no_nl_renderTags _ hnl)
  have hne : (takeLine (dropWs (' ' :: renderTags (t :: ts)))).isEmpty = false := by
    rw [hd, htl]
    show ('[' :: (t ++ (']' :: renderRest ts))).isEmpty = false
    rfl
  have hmain := planSearch_marker_head (' ' :: renderTags (t :: ts)) hne
  rw [hd, htl] at hmain
  exact hmain

/-- Both pipeline paths yield at least one chunk before any failure: the
all-agents path opens with its `plan` chunk, the router path with `thinking`. -/
theorem processQuery_events_cons (C : Collaborators) (sess : SessionState)
    (q : Str) (ag : AgentsState) :
    ∃ c rest, (processQuery C sess q ag).1 = c :: rest := by
  by_cases h : shouldUseAllAgents q = true
  · rw [processQuery, if_pos h]
    rcases hrs : runSeqStreaming C sess expertSequenceAll q ag with ⟨evs, out⟩
    cases out with
    | error pe =>
      rcases pe with ⟨err, ag2⟩
      exact ⟨Event.planEv allAgentsPlanContent,
        Event.experts (expertSequenceAll.map Expert.name) :: evs,
        by simp [processWithAllAgents, hrs]⟩
    | ok pr =>
      rcases pr with ⟨rv2, ag2⟩
      exact ⟨Event.planEv allAgentsPlanContent,
        Event.experts (expertSequenceAll.map Expert.name) ::
          (evs ++ [Event.finalEv (getFinalResultFromStreaming C sess q
            expertSequenceAll allAgentsPlanContent ag2).1]),
        by simp [processWithAllAgents, hrs]⟩
  · rw [processQuery, if_neg h]
    rcases hrs : runSeqStreaming C sess
        (parseExecutionPlan (C.planChunks.foldl (· ++ ·) [])) q ag with ⟨evs, out⟩
    cases out with
    | error pe =>
      rcases pe with ⟨err, ag2⟩
      exact ⟨Event.thinking "正在规划分析步骤...".data,
        (cumulPieces [] C.planChunks).map Event.planEv ++
          Event.experts ((parseExecutionPlan
            (C.planChunks.foldl (· ++ ·) [])).map Expert.name) :: evs,
        by simp [processWithRouter, hrs]⟩
    | ok pr =>
      rcases pr with ⟨rv2, ag2⟩
      exact ⟨Event.thinking "正在规划分析步骤...".data,
        (cumulPieces [] C.planChunks).map Event.planEv ++
          Event.experts ((parseExecutionPlan
            (C.planChunks.foldl (· ++ ·) [])).map Expert.name) ::
          (evs ++ [Event.finalEv (getFinalResultFromStreaming C sess q
            (parseExecutionPlan (C.planChunks.foldl (· ++ ·) []))
            (C.planChunks.foldl (· ++ ·) []) ag2).1]),
        by simp [processWithRouter, hrs]⟩

theorem cumulPieces_map_kinds :
    ∀ (l : List Str) (acc : Str),
      ((cumulPieces acc l).map Event.planEv).map kindStep =
        List.replicate l.length ((EvKind.planK, 0, 0) : EvKind × Nat × Nat) := by
  intro l
  induction l with
  | nil => intro acc; rfl
  | cons c cs ih =>
    intro acc
    simp [cumulPieces, kindStep, ih (acc ++ c), List.replicate_succ]

theorem foldl_removeFenced (lines : List Str) :
    ∀ (b : Bool) (acc : List Str),
      (lines.foldl
        (fun st line =>
          if isFenceLine line then (!st.1, st.2)
          else if st.1 then st else (st.1, st.2 ++ [line]))
        (b, acc)).2 = acc ++ removeFencedLoop lines b := by
  induction lines with
  | nil => intro b acc; simp [removeFencedLoop]
  | cons line rest ih =>
    intro b acc
    simp only [List.foldl_cons, removeFencedLoop]
    by_cases hf : isFenceLine line = true
    · have hf2 : fenceTok.isPrefixOf (stripStr line) = true := hf
      rw [if_pos hf, if_pos hf2]
      exact ih (!b) acc
    · have hf2 : ¬ fenceTok.isPrefixOf (stripStr line) = true := hf
      rw [if_neg hf, if_neg hf2]
      cases b with
      | true =>
        rw [if_pos rfl, if_pos rfl]
        exact ih true acc
      | false =>
        rw [if_neg (by simp), if_neg (by simp)]
        rw [ih false (acc ++ [line]), List.append_assoc]
        rfl

/-- `removeFencedSpec` agrees with the in-loop state machine of the source. -/
theorem removeFencedSpec_eq (lines : List Str) :
    removeFencedSpec lines = removeFencedLoop lines false := by
  have := foldl_removeFenced lines false []
  simpa [removeFencedSpec] using this

/-- C10: the output-cleaning filter `_clean_response_content` returns texts
without a code fence unchanged; when a fence is present it removes all fenced
lines, and if the remaining stripped text is shorter than 100 characters it
discards it and returns the fixed boilerplate "findings and recommendations"
report, otherwise it returns the remaining stripped text. -/
theorem C10_clean_response_behavior :
    (∀ t : Str, pyIn fenceTok t = false → cleanResponseContent t = t) ∧
    (∀ t : Str, pyIn fenceTok t = true → (defencedText t).length < 100 →
      cleanResponseContent t = boilerplateReport) ∧
    (∀ t : Str, pyIn fenceTok t = true → ¬ (defencedText t).length < 100 →
      cleanResponseContent t = defencedText t) := by
  have hne : ∀ t : Str, pyIn fenceTok t = true → t.isEmpty = false := by
    intro t h
    cases t with
    | nil => simp [pyIn, fenceTok] at h
    | cons c cs => rfl
  have hdt : ∀ t : Str, defencedText t =
      stripStr (joinWith nlStr (removeFencedLoop (splitOn '\n' t) false)) := by
    intro t
    simp [defencedText, removeFencedSpec_eq]
  refine ⟨?_, ?_, ?_⟩
  · intro t h
    by_cases he : t.isEmpty = true
    · simp [cleanResponseContent, he]
    · simp [cleanResponseContent, he, h]
  · intro t h hlen
    rw [hdt t] at hlen
    simp [cleanResponseContent, hne t h, h, hlen]
  · intro t h hlen
    rw [hdt t] at hlen
    simp [cleanResponseContent, hne t h, h, hlen, hdt t]

/-- Witness for C10 at concrete inputs: a fence-free text is unchanged, a
mostly-code text collapses to the boilerplate report, and a fenced text with a
long enough prose remainder keeps that remainder. -/
theorem C10_clean_response_behavior_witness :
    cleanResponseContent "纯文本结论。".data = "纯文本结论。".data ∧
    cleanResponseContent "```\nprint(1)\n```\n结论".data = boilerplateReport ∧
    cleanResponseContent ("```\nprint(1)\n```\n".data ++ List.replicate 120 '据') =
      defencedText ("```\nprint(1)\n```\n".data ++ List.replicate 120 '据') := by
  refine ⟨C10_clean_response_behavior.1 _ (by decide),
    C10_clean_response_behavior.2.1 _ (by decide) (by decide),
    C10_clean_response_behavior.2.2 _ ?_ ?_⟩
  · decide
  · decide

/-- C7: a query containing the "complete report" trigger phrase 完整报告 makes
the intent heuristic choose the fixed 4-stage plan (Knowledge, SqlQuery,
DataAnalysis, Visualization) regardless of length and without consulting the
reasoning collaborator; likewise any query longer than 20 characters. -/
theorem C7_intent_planner_fixed_plan :
    (∀ (p q : Str), "完整报告".data <:+: q →
      intentPlan p q = (expertSequenceAll, false)) ∧
    (∀ (p q : Str), 20 < q.length →
      intentPlan p q = (expertSequenceAll, false)) := by
  constructor
  · intro p q h
    have hmap : ("完整报告".data).map Char.toLower <:+: q.map Char.toLower := by
      rcases h with ⟨s, t, hst⟩
      exact ⟨s.map Char.toLower, t.map Char.toLower, by rw [← hst]; simp⟩
    have hl : "完整报告".data <:+: pyLower q := by
      have hfix : ("完整报告".data).map Char.toLower = "完整报告".data := by decide
      rw [hfix] at hmap
      exact hmap
    have hany : (comprehensiveKeywords.any fun k => pyIn k (pyLower q)) = true := by
      rw [List.any_eq_true]
      exact ⟨"完整报告".data, by decide, pyIn_iff.mpr hl⟩
    have hk : shouldUseAllAgents q = true := by
      simp [shouldUseAllAgents, hany]
    simp [intentPlan, hk]
  · intro p q h
    have hk : shouldUseAllAgents q = true := by
      simp [shouldUseAllAgents, h]
    simp [intentPlan, hk]

/-- Witness for C7: the trigger phrase fires on a short (8-character) query,
and a 21-character query without any trigger phrase also gets the fixed plan. -/
theorem C7_intent_planner_fixed_plan_witness :
    intentPlan [] "请出一份完整报告吧".data = (expertSequenceAll, false) ∧
    intentPlan [] "一二三四五六七八九十一二三四五六七八九十一".data =
      (expertSequenceAll, false) := by
  refine ⟨C7_intent_planner_fixed_plan.1 [] _ ?_, C7_intent_planner_fixed_plan.2 [] _ ?_⟩
  · decide
  · decide

/-- C3 counterexample: a structured plan line with the same tag twice yields
two stages of the same kind — duplicate tags of one kind are NOT collapsed, so
a kind can appear twice in the returned plan. -/
theorem C3_counterexample :
    parseExecutionPlan "执行计划: [SQL专家] -> [SQL专家]".data =
      [⟨ExpertType.sql, "SQL专家".data⟩, ⟨ExpertType.sql, "SQL专家".data⟩] ∧
    ¬ ((parseExecutionPlan "执行计划: [SQL专家] -> [SQL专家]".data).map
        Expert.etype).Nodup := by
  constructor
  · decide
  · decide

/-- C3 amended: for a plan text of the form `执行计划: [A] -> [B] -> ...` the
parser returns one stage per recognized bracketed tag, in exactly the bracketed
order, dropping unrecognized tags — but without collapsing duplicate tags of
the same kind (each occurrence gives its own stage). -/
theorem C3_amended (tags : List Str)
    (hch : ∀ t ∈ tags, ¬ ']' ∈ t ∧ ¬ '\n' ∈ t)
    (hne : tags.filterMap tagToExpert ≠ []) :
    parseExecutionPlan (planMarker ++ (' ' :: renderTags tags)) =
      tags.filterMap tagToExpert := by
  cases tags with
  | nil => simp at hne
  | cons t ts =>
    have hplan := planSearch_render t ts (fun u hu => (hch u hu).2)
    have hbr : extractBrackets (renderTags (t :: ts)) = t :: ts := by
      rw [extractBrackets, ebAux_renderTags (t :: ts) (fun u hu => (hch u hu).1)]
    have hemp : (((t :: ts)).filterMap tagToExpert).isEmpty = false := by
      cases hfm : (t :: ts).filterMap tagToExpert with
      | nil => exact absurd hfm hne
      | cons a l => rfl
    simp only [parseExecutionPlan, hplan, hbr, hemp, Bool.false_eq_true, if_false]

/-- Witness for C3's amended statement: the duplicated SQL tag gives the
two-stage plan. -/
theorem C3_amended_witness :
    parseExecutionPlan (planMarker ++ (' ' :: renderTags ["SQL专家".data, "SQL专家".data])) =
      [⟨ExpertType.sql, "SQL专家".data⟩, ⟨ExpertType.sql, "SQL专家".data⟩] := by
  have h := C3_amended ["SQL专家".data, "SQL专家".data] (by decide) (by decide)
  rw [h]
  decide

/-- C4 counterexample: with the deadline check firing immediately (deadline 0),
the wire stream is `start`, `warning`, `complete` — there is no terminal
`final` event, so the synthesizer's degraded final answer never reaches the
caller. -/
theorem C4_counterexample :
    (streamChat (fun _ => true) demoC demoSess demoAg "sid4".data demoQuery).any
      isFinalEv = false ∧
    streamChat (fun _ => true) demoC demoSess demoAg "sid4".data demoQuery =
      [Event.start "sid4".data, Event.warning timeoutWarnMsg,
       Event.complete "sid4".data false] := by
  constructor
  · decide
  · decide

/-- C4 amended: on deadline expiry before the first chunk is forwarded, the
endpoint emits `start`, then the timeout `warning`, then the terminal
`complete` event; no `expert_start` event is sent, and no `final` event (the
fallback response text is only recorded, never streamed). -/
theorem C4_amended (C : Collaborators) (sess : SessionState) (ag : AgentsState)
    (sid q : Str) :
    streamChat (fun _ => true) C sess ag sid q =
      [Event.start sid, Event.warning timeoutWarnMsg, Event.complete sid false] := by
  obtain ⟨c, rest, hc⟩ := processQuery_events_cons C sess q ag
  rcases hpq : processQuery C sess q ag with ⟨chunks, err, ag2⟩
  rw [hpq] at hc
  simp only at hc
  subst hc
  simp only [streamChat, hpq]
  cases err with
  | none => simp [wireLoop]
  | some e => simp [wireLoop]

set_option maxRecDepth 4000 in
/-- C5 counterexample: in a successful 4-stage run the second wire event is the
`plan` event, not `experts`, and the stream ends with `complete` after `final`
— so the stream does not equal `Start, Experts, (ExpertStart, Intermediate)×N,
Final` exactly. -/
theorem C5_counterexample :
    (streamChat (fun _ => false) demoC demoSess demoAg "sid5".data demoQuery)[1]? =
      some (Event.planEv allAgentsPlanContent) ∧
    (streamChat (fun _ => false) demoC demoSess demoAg "sid5".data
      demoQuery).getLast? = some (Event.complete "sid5".data true) := by
  constructor
  · decide
  · decide

theorem kindStep_comp_wireXform : kindStep ∘ wireXform = kindStep :=
  funext kindStep_wireXform

theorem cumulPieces_comp_kinds (l : List Str) (acc : Str) :
    List.map (kindStep ∘ Event.planEv) (cumulPieces acc l) =
      List.replicate l.length ((EvKind.planK, 0, 0) : EvKind × Nat × Nat) := by
  have h := cumulPieces_map_kinds l acc
  rw [List.map_map] at h
  exact h

theorem kindStep_planEv (t : Str) : kindStep (Event.planEv t) = (EvKind.planK, 0, 0) := rfl

theorem kindStep_thinking (t : Str) :
    kindStep (Event.thinking t) = (EvKind.thinkingK, 0, 0) := rfl

theorem kindStep_experts (ns : List Str) :
    kindStep (Event.experts ns) = (EvKind.expertsK, 0, 0) := rfl

theorem kindStep_start (s : Str) : kindStep (Event.start s) = (EvKind.startK, 0, 0) := rfl

theorem kindStep_finalEv (c : FinalContent) :
    kindStep (Event.finalEv c) = (EvKind.finalK, 0, 0) := rfl

theorem kindStep_complete (s : Str) (b : Bool) :
    kindStep (Event.complete s b) = (EvKind.completeK, 0, 0) := rfl

theorem kindStep_wire_planEv :
    kindStep ∘ wireXform ∘ Event.planEv = kindStep ∘ Event.planEv :=
  funext fun t => kindStep_wireXform (Event.planEv t)

/-- C5 amended: the actual lifecycle adds the planning and terminal events the
claim omits.  On the fixed 4-stage path the wire stream is exactly `start`,
`plan`, `experts`, then `(expert_start, intermediate)` per stage with steps
increasing 1..4 and total 4, then `final` and `complete`.  On the router path
(plan text with no router fallback stage) it is `start`, `thinking`, one `plan`
event per streamed plan chunk, `experts`, then the same per-stage pairs for the
N parsed stages, then `final` and `complete`. -/
theorem C5_amended :
    (∀ (C : Collaborators) (sess : SessionState) (ag : AgentsState) (sid q : Str),
      shouldUseAllAgents q = true →
      (streamChat (fun _ => false) C sess ag sid q).map kindStep =
        [(EvKind.startK, 0, 0), (EvKind.planK, 0, 0), (EvKind.expertsK, 0, 0)] ++
          esImShape 4 0 4 ++ [(EvKind.finalK, 0, 0), (EvKind.completeK, 0, 0)]) ∧
    (∀ (C : Collaborators) (sess : SessionState) (ag : AgentsState) (sid q : Str),
      shouldUseAllAgents q = false →
      (∀ e ∈ parseExecutionPlan (C.planChunks.foldl (· ++ ·) []),
        e.etype ≠ ExpertType.router) →
      (streamChat (fun _ => false) C sess ag sid q).map kindStep =
        [(EvKind.startK, 0, 0), (EvKind.thinkingK, 0, 0)] ++
          List.replicate C.planChunks.length (EvKind.planK, 0, 0) ++
          [(EvKind.expertsK, 0, 0)] ++
          esImShape (parseExecutionPlan (C.planChunks.foldl (· ++ ·) [])).length 0
            (parseExecutionPlan (C.planChunks.foldl (· ++ ·) [])).length ++
          [(EvKind.finalK, 0, 0), (EvKind.completeK, 0, 0)]) := by
  constructor
  · intro C sess ag sid q hq
    obtain ⟨hkinds, rv2, ag2, hok⟩ :=
      runSeqStreamingAux_shape C sess 4 expertSequenceAll 0 (initRunVars q) ag
        (by decide)
    rcases hrs : runSeqStreaming C sess expertSequenceAll q ag with ⟨evs, out⟩
    have hrs2 : runSeqStreamingAux C sess 4 expertSequenceAll 0 (initRunVars q) ag =
        (evs, out) := hrs
    rw [hrs2] at hkinds hok
    simp only at hkinds hok
    rw [hok] at hrs
    rcases hgf : getFinalResultFromStreaming C sess q expertSequenceAll
        allAgentsPlanContent ag2 with ⟨fc, ag3⟩
    have hpq : processQuery C sess q ag =
        (Event.planEv allAgentsPlanContent ::
          Event.experts (expertSequenceAll.map Expert.name) ::
          (evs ++ [Event.finalEv fc]), none, ag3) := by
      simp [processQuery, hq, processWithAllAgents, hrs, hgf]
    have hlen4 : expertSequenceAll.length = 4 := by decide
    rw [hlen4] at hkinds
    obtain ⟨hwl1, hwl4⟩ := wireLoop_no_timeout
      (Event.planEv allAgentsPlanContent ::
        Event.experts (expertSequenceAll.map Expert.name) ::
        (evs ++ [Event.finalEv fc])) 0 none false
    simp only [streamChat, hpq, hwl1, hwl4]
    simp [List.map_map, kindStep_comp_wireXform, kindStep_wireXform,
      map_kindStep_wireXform, hkinds, kindStep_planEv, kindStep_experts,
      kindStep_start, kindStep_finalEv, kindStep_complete]
  · intro C sess ag sid q hq hnr
    rcases hrs : runSeqStreaming C sess
        (parseExecutionPlan (C.planChunks.foldl (· ++ ·) [])) q ag with ⟨evs, out⟩
    obtain ⟨hkinds, rv2, ag2, hok⟩ :=
      runSeqStreamingAux_shape C sess
        (parseExecutionPlan (C.planChunks.foldl (· ++ ·) [])).length
        (parseExecutionPlan (C.planChunks.foldl (· ++ ·) [])) 0 (initRunVars q) ag hnr
    have hrs2 : runSeqStreamingAux C sess
        (parseExecutionPlan (C.planChunks.foldl (· ++ ·) [])).length
        (parseExecutionPlan (C.planChunks.foldl (· ++ ·) [])) 0 (initRunVars q) ag =
        (evs, out) := hrs
    rw [hrs2] at hkinds hok
    simp only at hkinds hok
    rw [hok] at hrs
    rcases hgf : getFinalResultFromStreaming C sess q
        (parseExecutionPlan (C.planChunks.foldl (· ++ ·) []))
        (C.planChunks.foldl (· ++ ·) []) ag2 with ⟨fc, ag3⟩
    have hpq : processQuery C sess q ag =
        (Event.thinking "正在规划分析步骤...".data ::
          ((cumulPieces [] C.planChunks).map Event.planEv ++
            Event.experts ((parseExecutionPlan
              (C.planChunks.foldl (· ++ ·) [])).map Expert.name) ::
            (evs ++ [Event.finalEv fc])), none, ag3) := by
      simp [processQuery, hq, processWithRouter, hrs, hgf]
    obtain ⟨hwl1, hwl4⟩ := wireLoop_no_timeout
      (Event.thinking "正在规划分析步骤...".data ::
        ((cumulPieces [] C.planChunks).map Event.planEv ++
          Event.experts ((parseExecutionPlan
            (C.planChunks.foldl (· ++ ·) [])).map Expert.name) ::
          (evs ++ [Event.finalEv fc]))) 0 none false
    simp only [streamChat, hpq, hwl1, hwl4]
    simp [List.map_map, kindStep_comp_wireXform, kindStep_wireXform,
      map_kindStep_wireXform, hkinds, kindStep_planEv, kindStep_thinking,
      kindStep_experts, kindStep_start, kindStep_finalEv, kindStep_complete,
      kindStep_wire_planEv, cumulPieces_comp_kinds]

/-- Witness for C5's amended statement on a concrete successful 4-stage run. -/
theorem C5_amended_witness :
    (streamChat (fun _ => false) demoC demoSess demoAg "sid5w".data demoQuery).map
        kindStep =
      [(EvKind.startK, 0, 0), (EvKind.planK, 0, 0), (EvKind.expertsK, 0, 0)] ++
        esImShape 4 0 4 ++ [(EvKind.finalK, 0, 0), (EvKind.completeK, 0, 0)] :=
  C5_amended.1 demoC demoSess demoAg "sid5w".data demoQuery (by decide)

set_option maxRecDepth 8000 in
/-- C6 counterexample: in a canonical 4-stage run whose knowledge expert
returns an empty insight text, the synthesized report omits the
industry-background section entirely — no header and no "could not complete"
note — while the other sections such as the data-analysis section are present.
So not every section of the fixed structure is always present. -/
theorem C6_counterexample :
    pyIn "行业背景与专业洞察".data
      ((getFinalResultFromStreaming demoCEmptyK demoSess demoQuery expertSequenceAll
        allAgentsPlanContent demoAg).1.response) = false ∧
    pyIn "## 📊 深度数据分析".data
      ((getFinalResultFromStreaming demoCEmptyK demoSess demoQuery expertSequenceAll
        allAgentsPlanContent demoAg).1.response) = true := by
  constructor
  · decide
  · decide

/-- C6 amended: the synthesized report always carries the fixed summary
section, and each of the SQL, analysis and visualization stages that failed is
reported with its status-note section rather than being omitted; but a section
whose backing text is empty (e.g. empty knowledge insights, as in the
counterexample) is dropped without a note, so the fixed six-section structure
is not guaranteed. -/
theorem C6_amended :
    (∀ (ctx : SharedContext) (ir : IntermediateResults),
      "## 🎯 综合结论".data <:+: generateComprehensiveSummary ctx ir) ∧
    (∀ (ctx : SharedContext) (ir : IntermediateResults),
      optTruthy ir.sqlResponse = false → optTruthy ir.sqlError = true →
      "## ⚠️ 数据查询状态".data <:+: generateComprehensiveSummary ctx ir) ∧
    (∀ (ctx : SharedContext) (ir : IntermediateResults),
      ctx.analysisFindings.isEmpty = true → optTruthy ir.dataError = true →
      "## ⚠️ 数据分析状态".data <:+: generateComprehensiveSummary ctx ir) ∧
    (∀ (ctx : SharedContext) (ir : IntermediateResults),
      optTruthy ir.vizDescription = false → optTruthy ir.vizError = true →
      "## ⚠️ 可视化状态".data <:+: generateComprehensiveSummary ctx ir) := by
  refine ⟨?_, ?_, ?_, ?_⟩
  · intro ctx ir
    unfold generateComprehensiveSummary
    apply infix_joinWith
    simp
  · intro ctx ir h1 h2
    unfold generateComprehensiveSummary
    apply infix_joinWith
    simp [h1, h2]
  · intro ctx ir h1 h2
    unfold generateComprehensiveSummary
    apply infix_joinWith
    simp [h1, h2]
  · intro ctx ir h1 h2
    unfold generateComprehensiveSummary
    apply infix_joinWith
    simp [h1, h2]

/-- Witness for C6's amended statement at a concrete context in which the SQL,
analysis and visualization stages all failed. -/
theorem C6_amended_witness :
    "## 🎯 综合结论".data <:+:
      generateComprehensiveSummary
        { originalQuery := [], knowledgeInsights := [], sqlResults := none,
          analysisFindings := [], previousStepOutput := [] }
        { sqlError := some "未连接数据库".data,
          dataError := some "未加载数据".data,
          vizError := some "没有可用数据进行可视化".data } ∧
    "## ⚠️ 数据查询状态".data <:+:
      generateComprehensiveSummary
        { originalQuery := [], knowledgeInsights := [], sqlResults := none,
          analysisFindings := [], previousStepOutput := [] }
        { sqlError := some "未连接数据库".data,
          dataError := some "未加载数据".data,
          vizError := some "没有可用数据进行可视化".data } ∧
    "## ⚠️ 数据分析状态".data <:+:
      generateComprehensiveSummary
        { originalQuery := [], knowledgeInsights := [], sqlResults := none,
          analysisFindings := [], previousStepOutput := [] }
        { sqlError := some "未连接数据库".data,
          dataError := some "未加载数据".data,
          vizError := some "没有可用数据进行可视化".data } ∧
    "## ⚠️ 可视化状态".data <:+:
      generateComprehensiveSummary
        { originalQuery := [], knowledgeInsights := [], sqlResults := none,
          analysisFindings := [], previousStepOutput := [] }
        { sqlError := some "未连接数据库".data,
          dataError := some "未加载数据".data,
          vizError := some "没有可用数据进行可视化".data } :=
  ⟨C6_amended.1 _ _,
   C6_amended.2.1 _ _ (by decide) (by decide),
   C6_amended.2.2.1 _ _ (by decide) (by decide),
   C6_amended.2.2.2 _ _ (by decide) (by decide)⟩

/-- C8: with no connected database (and a file dataset loaded), the SqlQuery
stage soft-fails — it records the "no database connected, step skipped" text as
the previous step's output, sets the SQL error note, invokes no collaborator
and returns normally so the pipeline continues; the DataAnalysis stage still
invokes the data collaborator; and the synthesized report carries the
query-status note for the failed SQL stage instead of omitting the section. -/
theorem C8_sql_soft_fail_pipeline_continues :
    (∀ (C : Collaborators) (name : Str) (nt : Option ExpertType) (rp : Str)
        (rv : RunVars) (ag : AgentsState),
      runStageExec C sessNoDb ⟨ExpertType.sql, name⟩ nt rp rv ag =
        (ResultVal.pyNone,
         { rv with ir := { rv.ir with sqlError := some "未连接数据库".data }
                   ctx := { rv.ctx with previousStepOutput :=
                     "未连接数据库，跳过SQL查询步骤".data } },
         ag)) ∧
    (∀ (C : Collaborators) (name : Str) (nt : Option ExpertType) (rp : Str)
        (rv : RunVars) (ag : AgentsState),
      ((runStageExec C sessNoDb ⟨ExpertType.dataExp, name⟩ nt rp rv ag).2.2).dataCalls =
        ag.dataCalls + 1) ∧
    (∀ (ctx : SharedContext) (ir : IntermediateResults),
      ir.sqlError = some "未连接数据库".data → optTruthy ir.sqlResponse = false →
      "数据查询遇到问题: 未连接数据库".data <:+: generateComprehensiveSummary ctx ir) := by
  refine ⟨?_, ?_, ?_⟩
  · intro C name nt rp rv ag
    rfl
  · intro C name nt rp rv ag
    simp only [runStageExec]
    have hguard : (optTruthy sessNoDb.currentDataPath ||
        (match rv.ir.sql with | some rows => !rows.isEmpty | none => false)) = true := by
      simp [sessNoDb, optTruthy]
    rw [if_pos hguard]
    by_cases hs : rv.ir.sql.isSome = true
    · simp only [if_pos hs]
      split
      · rfl
      · rfl
    · simp only [if_neg hs]
      split
      · rfl
      · rfl
  · intro ctx ir hsql hresp
    have h2 : optTruthy ir.sqlError = true := by rw [hsql]; rfl
    have hmsg : "数据查询遇到问题: 未连接数据库".data =
        "数据查询遇到问题: ".data ++ ir.sqlError.getD [] := by rw [hsql]; rfl
    rw [hmsg]
    unfold generateComprehensiveSummary
    apply infix_joinWith
    simp [hresp, h2]

/-- Witness for C8 at concrete inputs: the stage equations and the report note
hold for the demo collaborators, a fresh run-variable record and a context with
the recorded SQL error. -/
theorem C8_sql_soft_fail_pipeline_continues_witness :
    runStageExec demoC sessNoDb ⟨ExpertType.sql, sqlName⟩ none []
        (initRunVars "查询".data) demoAg =
      (ResultVal.pyNone,
       { (initRunVars "查询".data) with
         ir := { (initRunVars "查询".data).ir with
           sqlError := some "未连接数据库".data }
         ctx := { (initRunVars "查询".data).ctx with
           previousStepOutput := "未连接数据库，跳过SQL查询步骤".data } },
       demoAg) ∧
    ((runStageExec demoC sessNoDb ⟨ExpertType.dataExp, dataName⟩ none []
        (initRunVars "查询".data) demoAg).2.2).dataCalls = demoAg.dataCalls + 1 ∧
    "数据查询遇到问题: 未连接数据库".data <:+:
      generateComprehensiveSummary
        { originalQuery := [], knowledgeInsights := [], sqlResults := none,
          analysisFindings := [], previousStepOutput := [] }
        { sqlError := some "未连接数据库".data } :=
  ⟨C8_sql_soft_fail_pipeline_continues.1 demoC sqlName none [] _ demoAg,
   C8_sql_soft_fail_pipeline_continues.2.1 demoC dataName none [] _ demoAg,
   C8_sql_soft_fail_pipeline_continues.2.2 _ _ (by decide) (by decide)⟩

/-- C9 counterexample: a `final` event whose response text is 50 001 characters
long passes the wire size transform unchanged — it is sent whole, with no
truncation marker, above the 50 000-character ceiling. -/
theorem C9_counterexample :
    shrinkChunk (Event.finalEv bigFinalContent) = Event.finalEv bigFinalContent ∧
    50000 < (finalRespOf (shrinkChunk (Event.finalEv bigFinalContent))).length ∧
    pyIn truncMarker (finalRespOf (shrinkChunk (Event.finalEv bigFinalContent))) =
      false := by
  refine ⟨rfl, ?_, ?_⟩
  · show 50000 < (List.replicate 50001 'a').length
    rw [List.length_replicate]
    omega
  · show pyIn truncMarker (List.replicate 50001 'a') = false
    rw [pyIn_false_iff]
    intro h
    have hm := h.subset (show '.' ∈ truncMarker by decide)
    rw [List.mem_replicate] at hm
    exact absurd hm.2 (by decide)

/-- C9 amended: the wire transform never truncates the `final` event's response
text; the 50 000-character truncation with its marker applies to the
`result.response` field of `intermediate` events (both the SQL-success and the
data-analysis result dicts, the two result shapes that carry a `response`
key); and an inline visualization payload over the 500 000-character ceiling is
replaced by `None` plus a warning on both `intermediate` and `final` events. -/
theorem C9_amended :
    (∀ c : FinalContent, finalRespOf (shrinkChunk (Event.finalEv c)) = c.response) ∧
    (∀ (c : IntermediateContent) (r : DataResult) (s : Str),
      c.result = ResultVal.dataR r → r.response = some s → 50000 < s.length →
      resultRespOf (shrinkChunk (Event.intermediate c)) =
        some (s.take 50000 ++ truncMarker)) ∧
    (∀ (c : IntermediateContent) (r : SqlResult),
      c.result = ResultVal.sqlR r → r.success = true → 50000 < r.response.length →
      resultRespOf (shrinkChunk (Event.intermediate c)) =
        some (r.response.take 50000 ++ truncMarker)) ∧
    (∀ (c : FinalContent) (v : Str), c.visualization = some v → 500000 < v.length →
      vizOf (shrinkChunk (Event.finalEv c)) = none ∧
      vizWarningOf (shrinkChunk (Event.finalEv c)) = some vizTooBigWarning) ∧
    (∀ (c : IntermediateContent) (v : Str), c.visualization = some v →
      500000 < v.length →
      vizOf (shrinkChunk (Event.intermediate c)) = none ∧
      vizWarningOf (shrinkChunk (Event.intermediate c)) = some vizTooBigWarning) := by
  refine ⟨?_, ?_, ?_, ?_, ?_⟩
  · intro c
    cases hv : c.visualization with
    | none => simp [shrinkChunk, hv, finalRespOf]
    | some v =>
      by_cases hb : v.length > 500000 <;> simp [shrinkChunk, hv, hb, finalRespOf]
  · intro c r s hc hr hlen
    have hshr : shrinkResult c.result =
        ResultVal.dataR { r with response := some (s.take 50000 ++ truncMarker) } := by
      rw [hc]
      simp [shrinkResult, hr, truncResponse, hlen]
    cases hv : c.visualization with
    | none => simp [shrinkChunk, hv, hshr, resultRespOf]
    | some v =>
      by_cases hb : v.length > 500000 <;>
        simp [shrinkChunk, hv, hb, hshr, resultRespOf]
  · intro c r hc hs hlen
    have hshr : shrinkResult c.result =
        ResultVal.sqlR { r with response := r.response.take 50000 ++ truncMarker } := by
      rw [hc]
      simp [shrinkResult, hs, truncResponse, hlen]
    cases hv : c.visualization with
    | none => simp [shrinkChunk, hv, hshr, resultRespOf, hs]
    | some v =>
      by_cases hb : v.length > 500000 <;>
        simp [shrinkChunk, hv, hb, hshr, resultRespOf, hs]
  · intro c v hv hlen
    constructor
    · simp [shrinkChunk, hv, hlen, vizOf]
    · simp [shrinkChunk, hv, hlen, vizWarningOf]
  · intro c v hv hlen
    constructor
    · simp [shrinkChunk, hv, hlen, vizOf]
    · simp [shrinkChunk, hv, hlen, vizWarningOf]

/-- Witness for C9's amended statement at concrete oversized payloads. -/
theorem C9_amended_witness :
    finalRespOf (shrinkChunk (Event.finalEv bigFinalContent)) =
      bigFinalContent.response ∧
    resultRespOf (shrinkChunk (Event.intermediate
      { expertName := []
        result := ResultVal.dataR
          { success := some true
            response := some (List.replicate 50001 'a')
            codeOutput := none
            visualization := none
            error := none }
        source := []
        visualization := none
        codeOutput := []
        step := 3
        totalSteps := 4
        sharedContext :=
          { originalQuery := []
            knowledgeInsights := []
            sqlResults := none
            analysisFindings := []
            previousStepOutput := [] } })) =
      some ((List.replicate 50001 'a').take 50000 ++ truncMarker) ∧
    resultRespOf (shrinkChunk (Event.intermediate
      { expertName := []
        result := ResultVal.sqlR
          { success := true
            data := []
            response := List.replicate 50001 'b'
            error := [] }
        source := []
        visualization := none
        codeOutput := []
        step := 2
        totalSteps := 4
        sharedContext :=
          { originalQuery := []
            knowledgeInsights := []
            sqlResults := none
            analysisFindings := []
            previousStepOutput := [] } })) =
      some ((List.replicate 50001 'b').take 50000 ++ truncMarker) ∧
    vizOf (shrinkChunk (Event.finalEv
      { response := []
        source := []
        visualization := some (List.replicate 500001 'x')
        codeOutput := [] })) = none ∧
    vizOf (shrinkChunk (Event.intermediate
      { expertName := []
        result := ResultVal.pyNone
        source := []
        visualization := some (List.replicate 500001 'y')
        codeOutput := []
        step := 4
        totalSteps := 4
        sharedContext :=
          { originalQuery := []
            knowledgeInsights := []
            sqlResults := none
            analysisFindings := []
            previousStepOutput := [] } })) = none :=
  ⟨C9_amended.1 bigFinalContent,
   C9_amended.2.1 _ _ _ rfl rfl (by rw [List.length_replicate]; omega),
   C9_amended.2.2.1 _ _ rfl rfl (by rw [List.length_replicate]; omega),
   (C9_amended.2.2.2.1 _ _ rfl (by rw [List.length_replicate]; omega)).1,
   (C9_amended.2.2.2.2 _ _ rfl (by rw [List.length_replicate]; omega)).1⟩

set_option maxRecDepth 8000 in
/-- C1: producing the final result after the streaming stage loop re-runs every
stage, so in a canonical 4-stage run with a connected database each of the four
expert collaborators is invoked exactly twice per pipeline run — the SQL query
included, which is re-executed rather than reusing the materialized results —
contradicting the at-most-once claim. -/
theorem C1_each_expert_invoked_twice :
    ((processWithAllAgents demoC demoSess demoQuery demoAg).2.2).knowledgeCalls = 2 ∧
    ((processWithAllAgents demoC demoSess demoQuery demoAg).2.2).sqlCalls = 2 ∧
    ((processWithAllAgents demoC demoSess demoQuery demoAg).2.2).dataCalls = 2 ∧
    ((processWithAllAgents demoC demoSess demoQuery demoAg).2.2).vizCalls = 2 := by
  refine ⟨?_, ?_, ?_, ?_⟩
  · decide
  · decide
  · decide
  · decide

set_option maxRecDepth 8000 in
/-- C2: when the plan parser falls back to the single router stage, the
streaming stage loop raises `NameError` (it reads the undefined local
`execution_plan`), the exception escapes the pipeline generator, and the wire
stream ends with the endpoint's error payload — the caller never receives a
terminal `final` event. -/
theorem C2_fallback_stage_raises_nameError :
    (processQuery demoCRouter demoSess "嗨".data demoAg).2.1 =
      some PyError.nameError ∧
    (streamChat (fun _ => false) demoCRouter demoSess demoAg "sid2".data
      "嗨".data).any isFinalEv = false ∧
    (streamChat (fun _ => false) demoCRouter demoSess demoAg "sid2".data
      "嗨".data).getLast? = some (Event.errorEv streamErrorMsg) := by
  refine ⟨?_, ?_, ?_⟩
  · decide
  · decide
  · decide
